import Mathlib

/-!
Verification development for the marketplace backend routes
(vehicles, materials, users). The JavaScript request handlers are
shallowly embedded as pure Lean functions: request bodies and query
strings become typed records or JSON association lists, the Sequelize
store becomes a list of records, and a thrown JavaScript exception
becomes an `Except` error value. JavaScript numbers that the routes
compare and store are modelled as rationals.
-/

set_option autoImplicit false

/-! ### JSON values and HTTP responses -/

inductive Json where
  | null : Json
  | bool : Bool → Json
  | num : ℚ → Json
  | str : String → Json
  | arr : List Json → Json
  | obj : List (String × Json) → Json

/-- A response body: either `res.json(...)` or `res.send('...')`. -/
inductive Body where
  | json : Json → Body
  | text : String → Body

structure Response where
  status : Nat
  body : Body

def Json.getField (j : Json) (k : String) : Option Json :=
  match j with
  | Json.obj fs => fs.lookup k
  | _ => none

def Response.jsonBody (r : Response) : Option Json :=
  match r.body with
  | Body.json j => some j
  | Body.text _ => none

/-- The response is a JSON object carrying a boolean `success` field. -/
def isEnvelope (r : Response) : Bool :=
  match r.body with
  | Body.json j =>
    match j.getField "success" with
    | some (Json.bool _) => true
    | _ => false
  | Body.text _ => false

def hasMessage (r : Response) : Bool :=
  match r.body with
  | Body.json j =>
    match j.getField "message" with
    | some (Json.str _) => true
    | _ => false
  | Body.text _ => false

def hasErrorsArray (r : Response) : Bool :=
  match r.body with
  | Body.json j =>
    match j.getField "errors" with
    | some (Json.arr _) => true
    | _ => false
  | Body.text _ => false

/-- Envelope with message: `{success: bool, ...}` and a `message` on
every error status (the conflict 400 of the users profile update is an
error response but not a validation failure, so no `errors` array is
required of it). -/
def envelopeMsgOk (r : Response) : Bool :=
  isEnvelope r &&
  (decide (r.status < 400) || hasMessage r)

/-- Envelope discipline of one response: `{success: bool, ...}`, a
`message` on every error status, and an `errors` array on 400. -/
def envelopeOk (r : Response) : Bool :=
  isEnvelope r &&
  (decide (r.status < 400) || hasMessage r) &&
  (decide (r.status ≠ 400) || hasErrorsArray r)

/-- A field-level violation descriptor as produced by `errors.array()`. -/
def fieldError (path : String) : Json :=
  Json.obj [("msg", Json.str "Invalid value"), ("path", Json.str path)]

/-- The `{success:false, message:'Validation failed', errors:[...]}`
response every validated route returns on a 400. -/
def validationFailedResp (errs : List Json) : Response :=
  ⟨400, Body.json (Json.obj
    [("success", Json.bool false),
     ("message", Json.str "Validation failed"),
     ("errors", Json.arr errs)])⟩

/-- A thrown JavaScript exception. -/
inductive JsError where
  | referenceError : String → JsError
deriving DecidableEq

/-! ### Entity records (rows of the store) -/

structure Vehicle where
  id : Nat
  ownerId : Nat
  name : String
  description : String
  category : String
  status : String
  pricePerHour : ℚ
  pricePerDay : ℚ
  rating : ℚ
  year : Nat
  featured : Bool
  createdAt : Nat
  availability : Json

structure Material where
  id : Nat
  supplierId : Nat
  name : String
  description : String
  category : String
  unit : String
  pricePerUnit : ℚ
  availableQuantity : ℚ
  rating : ℚ
  isAvailable : Bool
  featured : Bool
  createdAt : Nat

structure User where
  id : Nat
  name : String
  email : String
  phone : String
  address : String
  password : String

structure ServiceRequest where
  id : Nat
  userId : Nat

def Vehicle.toJson (v : Vehicle) : Json :=
  Json.obj
    [("id", Json.num v.id), ("ownerId", Json.num v.ownerId),
     ("name", Json.str v.name), ("description", Json.str v.description),
     ("category", Json.str v.category), ("status", Json.str v.status),
     ("pricePerHour", Json.num v.pricePerHour),
     ("pricePerDay", Json.num v.pricePerDay),
     ("rating", Json.num v.rating), ("year", Json.num v.year),
     ("featured", Json.bool v.featured),
     ("availability", v.availability)]

def Material.toJson (m : Material) : Json :=
  Json.obj
    [("id", Json.num m.id), ("supplierId", Json.num m.supplierId),
     ("name", Json.str m.name), ("description", Json.str m.description),
     ("category", Json.str m.category), ("unit", Json.str m.unit),
     ("pricePerUnit", Json.num m.pricePerUnit),
     ("availableQuantity", Json.num m.availableQuantity),
     ("rating", Json.num m.rating),
     ("isAvailable", Json.bool m.isAvailable),
     ("featured", Json.bool m.featured)]

/-- `attributes: { exclude: ['password'] }`. -/
def User.toSafeJson (u : User) : Json :=
  Json.obj
    [("id", Json.num u.id), ("name", Json.str u.name),
     ("email", Json.str u.email), ("phone", Json.str u.phone),
     ("address", Json.str u.address)]

/-! ### Pagination -/

structure Pagination where
  page : Nat
  limit : Nat
  total : Nat
  pages : ℤ
deriving DecidableEq

/-- `Math.ceil(count / limit)` rendered as the ceiling division of
naturals; `pagesOf_eq_ceil` below proves it equal to `⌈total / limit⌉`
over the exact rationals. -/
def pagesOf (total limit : Nat) : ℤ := ((total + limit - 1) / limit : ℕ)

/-- The pagination object the listing handlers put in the response. -/
def paginate (total page limit : Nat) : Pagination :=
  ⟨page, limit, total, pagesOf total limit⟩

def Pagination.toJson (p : Pagination) : Json :=
  Json.obj
    [("page", Json.num p.page), ("limit", Json.num p.limit),
     ("total", Json.num p.total), ("pages", Json.num p.pages)]

/-! ### Vehicles listing: criteria, validation, where/order building -/

/-- The parsed query string of `GET /api/vehicles`. -/
structure VehiclesListQuery where
  page : Option Nat := none
  limit : Option Nat := none
  category : Option String := none
  minPriceHour : Option ℚ := none
  maxPriceHour : Option ℚ := none
  minPriceDay : Option ℚ := none
  maxPriceDay : Option ℚ := none
  city : Option String := none
  state : Option String := none
  search : Option String := none
  sort : Option String := none

def vehicleCategoryValues : List String :=
  ["excavator", "truck", "crane", "bulldozer", "loader", "dump-truck",
   "concrete-mixer", "other"]

/-- Validator on one optional field: absent is fine, present must pass. -/
def checkOpt {α : Type} (v : Option α) (ok : α → Bool) (path : String) :
    List Json :=
  match v with
  | some x => if ok x then [] else [fieldError path]
  | none => []

/-- The express-validator chain guarding `GET /api/vehicles`. -/
def vehiclesListQueryErrors (q : VehiclesListQuery) : List Json :=
  checkOpt q.page (fun p => decide (1 ≤ p)) "page" ++
  checkOpt q.limit (fun l => decide (1 ≤ l) && decide (l ≤ 100)) "limit" ++
  checkOpt q.category (fun c => vehicleCategoryValues.contains c) "category" ++
  checkOpt q.minPriceHour (fun v => decide (0 ≤ v)) "minPriceHour" ++
  checkOpt q.maxPriceHour (fun v => decide (0 ≤ v)) "maxPriceHour" ++
  checkOpt q.minPriceDay (fun v => decide (0 ≤ v)) "minPriceDay" ++
  checkOpt q.maxPriceDay (fun v => decide (0 ≤ v)) "maxPriceDay" ++
  checkOpt q.city (fun s => decide (1 ≤ s.length)) "city" ++
  checkOpt q.state (fun s => decide (1 ≤ s.length)) "state" ++
  checkOpt q.search (fun s => decide (1 ≤ s.length)) "search"

/-- `{ [Op.gte]: v, [Op.lte]: v }` bounds accumulated on one field. -/
structure NumRange where
  gte : Option ℚ := none
  lte : Option ℚ := none
deriving DecidableEq

/-- `where.f = { ...where.f, [Op.gte]: v }`. -/
def NumRange.mergeGte (r : Option NumRange) (v : ℚ) : NumRange :=
  { r.getD {} with gte := some v }

/-- `where.f = { ...where.f, [Op.lte]: v }`. -/
def NumRange.mergeLte (r : Option NumRange) (v : ℚ) : NumRange :=
  { r.getD {} with lte := some v }

/-- The `where` object the vehicles listing handler builds. -/
structure VehicleWhere where
  status : String
  category : Option String := none
  pricePerHour : Option NumRange := none
  pricePerDay : Option NumRange := none
deriving DecidableEq

def applyCategoryFilter (q : VehiclesListQuery) (w : VehicleWhere) :
    VehicleWhere :=
  match q.category with
  | some c => { w with category := some c }
  | none => w

def applyMinPriceHour (q : VehiclesListQuery) (w : VehicleWhere) :
    VehicleWhere :=
  match q.minPriceHour with
  | some v => { w with pricePerHour := some (NumRange.mergeGte w.pricePerHour v) }
  | none => w

def applyMaxPriceHour (q : VehiclesListQuery) (w : VehicleWhere) :
    VehicleWhere :=
  match q.maxPriceHour with
  | some v => { w with pricePerHour := some (NumRange.mergeLte w.pricePerHour v) }
  | none => w

def applyMinPriceDay (q : VehiclesListQuery) (w : VehicleWhere) :
    VehicleWhere :=
  match q.minPriceDay with
  | some v => { w with pricePerDay := some (NumRange.mergeGte w.pricePerDay v) }
  | none => w

def applyMaxPriceDay (q : VehiclesListQuery) (w : VehicleWhere) :
    VehicleWhere :=
  match q.maxPriceDay with
  | some v => { w with pricePerDay := some (NumRange.mergeLte w.pricePerDay v) }
  | none => w

/-- Lines 40-74 of the vehicles route: builds `where` starting from
`{ status: 'active' }`; the city/state/search branches assign into the
undeclared variable `filter`, which throws a `ReferenceError`. -/
def buildVehicleWhere (q : VehiclesListQuery) :
    Except JsError VehicleWhere :=
  let w := applyMaxPriceDay q (applyMinPriceDay q
    (applyMaxPriceHour q (applyMinPriceHour q
      (applyCategoryFilter q { status := "active" }))))
  if q.city.isSome then Except.error (JsError.referenceError "filter is not defined")
  else if q.state.isSome then Except.error (JsError.referenceError "filter is not defined")
  else if q.search.isSome then Except.error (JsError.referenceError "filter is not defined")
  else Except.ok w

inductive Dir where
  | asc : Dir
  | desc : Dir
deriving DecidableEq

/-- The `switch (req.query.sort)` of the vehicles route. -/
def buildVehicleOrder (sort : Option String) : List (String × Dir) :=
  match sort with
  | some "price_hour_asc" => [("pricePerHour", Dir.asc)]
  | some "price_hour_desc" => [("pricePerHour", Dir.desc)]
  | some "price_day_asc" => [("pricePerDay", Dir.asc)]
  | some "price_day_desc" => [("pricePerDay", Dir.desc)]
  | some "rating" => [("rating", Dir.desc)]
  | some "newest" => [("createdAt", Dir.desc)]
  | _ => [("featured", Dir.desc), ("rating", Dir.desc)]

def rangeMatches (r : Option NumRange) (v : ℚ) : Bool :=
  match r with
  | none => true
  | some nr =>
    (match nr.gte with
     | some m => decide (m ≤ v)
     | none => true) &&
    (match nr.lte with
     | some m => decide (v ≤ m)
     | none => true)

/-- A row satisfies the `where` object. -/
def vehicleMatches (w : VehicleWhere) (v : Vehicle) : Bool :=
  (v.status == w.status) &&
  (match w.category with
   | some c => v.category == c
   | none => true) &&
  rangeMatches w.pricePerHour v.pricePerHour &&
  rangeMatches w.pricePerDay v.pricePerDay

def Vehicle.sortVal (v : Vehicle) : String → ℚ
  | "pricePerHour" => v.pricePerHour
  | "pricePerDay" => v.pricePerDay
  | "rating" => v.rating
  | "createdAt" => (v.createdAt : ℚ)
  | "featured" => if v.featured then 1 else 0
  | _ => 0

/-- Lexicographic comparison following the order list (DESC flips). -/
def vehicleLe (order : List (String × Dir)) (a b : Vehicle) : Bool :=
  match order with
  | [] => true
  | (f, d) :: rest =>
    let x := a.sortVal f
    let y := b.sortVal f
    let p := match d with
      | Dir.asc => (x, y)
      | Dir.desc => (y, x)
    if p.1 < p.2 then true
    else if p.2 < p.1 then false
    else vehicleLe rest a b

/-- The argument object of `Vehicle.findAndCountAll`. -/
structure VehicleQuerySpec where
  whereClause : VehicleWhere
  order : List (String × Dir)
  offset : Nat
  limit : Nat
deriving DecidableEq

/-- What a vehicles listing request produced: the response, and the
query actually handed to the persistence call (none when the handler
never reached it). -/
structure VehiclesListResult where
  resp : Response
  executed : Option VehicleQuerySpec

/-- The catch-branch response of the vehicles listing handler. -/
def vehiclesCatchResp : Response :=
  ⟨500, Body.json (Json.obj
    [("success", Json.bool false),
     ("message", Json.str "Server error while fetching vehicles")])⟩

/-- `GET /api/vehicles`. -/
def vehiclesListHandler (q : VehiclesListQuery) (store : List Vehicle) :
    VehiclesListResult :=
  let errs := vehiclesListQueryErrors q
  if errs.isEmpty then
    let page := q.page.getD 1
    let limit := q.limit.getD 10
    let offset := (page - 1) * limit
    match buildVehicleWhere q with
    | Except.error _ => ⟨vehiclesCatchResp, none⟩
    | Except.ok w =>
      let order := buildVehicleOrder q.sort
      let matching := store.filter (vehicleMatches w)
      let count := matching.length
      let rows := ((matching.mergeSort (vehicleLe order)).drop offset).take limit
      ⟨⟨200, Body.json (Json.obj
          [("success", Json.bool true),
           ("data", Json.arr (rows.map Vehicle.toJson)),
           ("pagination", (paginate count page limit).toJson)])⟩,
       some ⟨w, order, offset, limit⟩⟩
  else ⟨validationFailedResp errs, none⟩

/-! ### Materials listing -/

/-- The parsed query string of `GET /api/materials`. -/
structure MaterialsListQuery where
  page : Option Nat := none
  limit : Option Nat := none
  category : Option String := none
  minPrice : Option ℚ := none
  maxPrice : Option ℚ := none
  search : Option String := none
  sort : Option String := none

def materialCategoryValues : List String :=
  ["sand", "gravel", "steel", "concrete", "bricks", "timber", "soil",
   "stone", "other"]

/-- The express-validator chain guarding `GET /api/materials`. -/
def materialsListQueryErrors (q : MaterialsListQuery) : List Json :=
  checkOpt q.page (fun p => decide (1 ≤ p)) "page" ++
  checkOpt q.limit (fun l => decide (1 ≤ l) && decide (l ≤ 100)) "limit" ++
  checkOpt q.category (fun c => materialCategoryValues.contains c) "category" ++
  checkOpt q.minPrice (fun v => decide (0 ≤ v)) "minPrice" ++
  checkOpt q.maxPrice (fun v => decide (0 ≤ v)) "maxPrice" ++
  checkOpt q.search (fun s => decide (1 ≤ s.length)) "search"

/-- The `where` object the materials listing handler builds. -/
structure MaterialWhere where
  isAvailable : Bool
  category : Option String := none
  pricePerUnit : Option NumRange := none
deriving DecidableEq

/-- Lines 35-47 of the materials route: builds `where` starting from
`{ isAvailable: true }`; the minPrice/maxPrice branches read `Op`,
which this module never imports, so they throw a `ReferenceError`. -/
def buildMaterialWhere (q : MaterialsListQuery) :
    Except JsError MaterialWhere :=
  let w : MaterialWhere := { isAvailable := true }
  let w := match q.category with
    | some c => { w with category := some c }
    | none => w
  if q.minPrice.isSome then Except.error (JsError.referenceError "Op is not defined")
  else if q.maxPrice.isSome then Except.error (JsError.referenceError "Op is not defined")
  else Except.ok w

/-- The `switch (req.query.sort)` of the materials route. -/
def buildMaterialOrder (sort : Option String) : List (String × Dir) :=
  match sort with
  | some "price_asc" => [("pricePerUnit", Dir.asc)]
  | some "price_desc" => [("pricePerUnit", Dir.desc)]
  | some "rating" => [("rating", Dir.desc)]
  | some "newest" => [("createdAt", Dir.desc)]
  | _ => [("featured", Dir.desc), ("rating", Dir.desc)]

def materialMatches (w : MaterialWhere) (m : Material) : Bool :=
  (m.isAvailable == w.isAvailable) &&
  (match w.category with
   | some c => m.category == c
   | none => true) &&
  rangeMatches w.pricePerUnit m.pricePerUnit

def Material.sortVal (m : Material) : String → ℚ
  | "pricePerUnit" => m.pricePerUnit
  | "rating" => m.rating
  | "createdAt" => (m.createdAt : ℚ)
  | "featured" => if m.featured then 1 else 0
  | _ => 0

def materialLe (order : List (String × Dir)) (a b : Material) : Bool :=
  match order with
  | [] => true
  | (f, d) :: rest =>
    let x := a.sortVal f
    let y := b.sortVal f
    let p := match d with
      | Dir.asc => (x, y)
      | Dir.desc => (y, x)
    if p.1 < p.2 then true
    else if p.2 < p.1 then false
    else materialLe rest a b

/-- The argument object of `Material.findAndCountAll`. -/
structure MaterialQuerySpec where
  whereClause : MaterialWhere
  order : List (String × Dir)
  offset : Nat
  limit : Nat
deriving DecidableEq

structure MaterialsListResult where
  resp : Response
  executed : Option MaterialQuerySpec

/-- The catch-branch response of the materials listing handler. -/
def materialsCatchResp : Response :=
  ⟨500, Body.json (Json.obj
    [("success", Json.bool false),
     ("message", Json.str "Server error while fetching materials")])⟩

/-- `GET /api/materials`. -/
def materialsListHandler (q : MaterialsListQuery) (store : List Material) :
    MaterialsListResult :=
  let errs := materialsListQueryErrors q
  if errs.isEmpty then
    let page := q.page.getD 1
    let limit := q.limit.getD 10
    let offset := (page - 1) * limit
    match buildMaterialWhere q with
    | Except.error _ => ⟨materialsCatchResp, none⟩
    | Except.ok w =>
      let order := buildMaterialOrder q.sort
      let matching := store.filter (materialMatches w)
      let count := matching.length
      let rows := ((matching.mergeSort (materialLe order)).drop offset).take limit
      ⟨⟨200, Body.json (Json.obj
          [("success", Json.bool true),
           ("data", Json.arr (rows.map Material.toJson)),
           ("pagination", (paginate count page limit).toJson)])⟩,
       some ⟨w, order, offset, limit⟩⟩
  else ⟨validationFailedResp errs, none⟩

/-! ### Single-entity GET -/

/-- `GET /api/vehicles/:id`. -/
def vehiclesGetByIdHandler (id : Nat) (store : List Vehicle) : Response :=
  match store.find? (fun v => v.id == id) with
  | none =>
    ⟨404, Body.json (Json.obj
      [("success", Json.bool false),
       ("message", Json.str "Vehicle not found")])⟩
  | some v =>
    ⟨200, Body.json (Json.obj
      [("success", Json.bool true), ("data", v.toJson)])⟩

/-- `GET /api/materials/:id`. -/
def materialsGetByIdHandler (id : Nat) (store : List Material) : Response :=
  match store.find? (fun m => m.id == id) with
  | none =>
    ⟨404, Body.json (Json.obj
      [("success", Json.bool false),
       ("message", Json.str "Material not found")])⟩
  | some m =>
    ⟨200, Body.json (Json.obj
      [("success", Json.bool true), ("data", m.toJson)])⟩

/-! ### Creation (POST): spread of the body, then the owner field -/

/-- JavaScript object-literal update: `{...fs, k: v}` keeps the key in
place when present, else appends it. -/
def jsObjSet (fs : List (String × Json)) (k : String) (v : Json) :
    List (String × Json) :=
  if fs.any (fun p => p.1 == k) then
    fs.map (fun p => if p.1 == k then (k, v) else p)
  else fs ++ [(k, v)]

/-- `const vehicleData = { ...req.body, ownerId: req.user.partnerId }`. -/
def vehicleDataOf (body : List (String × Json)) (partnerId : Nat) :
    List (String × Json) :=
  jsObjSet body "ownerId" (Json.num partnerId)

/-- `const materialData = { ...req.body, supplierId: req.user.partnerId }`. -/
def materialDataOf (body : List (String × Json)) (partnerId : Nat) :
    List (String × Json) :=
  jsObjSet body "supplierId" (Json.num partnerId)

def getStr (body : List (String × Json)) (k : String) : Option String :=
  match body.lookup k with
  | some (Json.str s) => some s
  | _ => none

def getNum (body : List (String × Json)) (k : String) : Option ℚ :=
  match body.lookup k with
  | some (Json.num v) => some v
  | _ => none

/-- The `.trim()` sanitizer: strip leading and trailing whitespace
(written over the character list so that it evaluates). -/
def jsTrim (s : String) : String :=
  ⟨((s.data.dropWhile Char.isWhitespace).reverse.dropWhile
      Char.isWhitespace).reverse⟩

/-- Required string field whose trimmed length must lie in a range. -/
def strLenCheck (body : List (String × Json)) (k : String) (lo hi : Nat) :
    List Json :=
  match getStr body k with
  | some s =>
    if decide (lo ≤ (jsTrim s).length) && decide ((jsTrim s).length ≤ hi) then []
    else [fieldError k]
  | none => [fieldError k]

/-- Required string field with only a minimum trimmed length. -/
def strMinCheck (body : List (String × Json)) (k : String) (lo : Nat) :
    List Json :=
  match getStr body k with
  | some s => if decide (lo ≤ (jsTrim s).length) then [] else [fieldError k]
  | none => [fieldError k]

/-- Required enum field. -/
def enumCheck (body : List (String × Json)) (k : String)
    (values : List String) : List Json :=
  match getStr body k with
  | some s => if values.contains s then [] else [fieldError k]
  | none => [fieldError k]

/-- Required non-negative numeric field. -/
def numMinCheck (body : List (String × Json)) (k : String) : List Json :=
  match getNum body k with
  | some v => if decide (0 ≤ v) then [] else [fieldError k]
  | none => [fieldError k]

/-- Required integer field within bounds. -/
def intRangeCheck (body : List (String × Json)) (k : String)
    (lo hi : ℚ) : List Json :=
  match getNum body k with
  | some v =>
    if (v.den == 1) && decide (lo ≤ v) && decide (v ≤ hi) then []
    else [fieldError k]
  | none => [fieldError k]

/-- The validator chain of `POST /api/vehicles`; `maxYear` stands for
`new Date().getFullYear() + 1`. -/
def vehiclePostErrors (maxYear : Nat) (body : List (String × Json)) :
    List Json :=
  strLenCheck body "name" 2 100 ++
  strLenCheck body "description" 10 500 ++
  enumCheck body "category" vehicleCategoryValues ++
  strMinCheck body "type" 2 ++
  strMinCheck body "model" 2 ++
  intRangeCheck body "year" 1990 (maxYear : ℚ) ++
  numMinCheck body "pricePerHour" ++
  numMinCheck body "pricePerDay"

/-- `POST /api/vehicles`. -/
def vehiclesPostHandler (maxYear : Nat) (body : List (String × Json))
    (partnerId : Nat) : Response :=
  let errs := vehiclePostErrors maxYear body
  if errs.isEmpty then
    ⟨201, Body.json (Json.obj
      [("success", Json.bool true),
       ("message", Json.str "Vehicle created successfully"),
       ("data", Json.obj (vehicleDataOf body partnerId))])⟩
  else validationFailedResp errs

def materialUnitValues : List String :=
  ["cubic meter", "ton", "kg", "per 100 pieces", "square meter",
   "linear meter"]

/-- The validator chain of `POST /api/materials`. -/
def materialPostErrors (body : List (String × Json)) : List Json :=
  strLenCheck body "name" 2 100 ++
  strLenCheck body "description" 10 500 ++
  enumCheck body "category" materialCategoryValues ++
  numMinCheck body "pricePerUnit" ++
  enumCheck body "unit" materialUnitValues ++
  numMinCheck body "availableQuantity"

/-- `POST /api/materials`. -/
def materialsPostHandler (body : List (String × Json)) (partnerId : Nat) :
    Response :=
  let errs := materialPostErrors body
  if errs.isEmpty then
    ⟨201, Body.json (Json.obj
      [("success", Json.bool true),
       ("message", Json.str "Material created successfully"),
       ("data", Json.obj (materialDataOf body partnerId))])⟩
  else validationFailedResp errs

/-! ### Update (PUT) and delete -/

/-- The fields of `req.body` a vehicle update may carry; `update`
applies the present ones. -/
structure VehicleUpdateBody where
  name : Option String := none
  description : Option String := none
  pricePerHour : Option ℚ := none
  pricePerDay : Option ℚ := none
  status : Option String := none

def applyVehicleUpdate (b : VehicleUpdateBody) (v : Vehicle) : Vehicle :=
  { v with
    name := b.name.getD v.name,
    description := b.description.getD v.description,
    pricePerHour := b.pricePerHour.getD v.pricePerHour,
    pricePerDay := b.pricePerDay.getD v.pricePerDay,
    status := b.status.getD v.status }

/-- `PUT /api/vehicles/:id` (no body validators on this route). -/
def vehiclesPutHandler (id : Nat) (partnerId : Nat) (b : VehicleUpdateBody)
    (store : List Vehicle) : Response × List Vehicle :=
  match store.find? (fun v => v.id == id) with
  | none =>
    (⟨404, Body.json (Json.obj
       [("success", Json.bool false),
        ("message", Json.str "Vehicle not found")])⟩, store)
  | some v =>
    if v.ownerId ≠ partnerId then
      (⟨403, Body.json (Json.obj
         [("success", Json.bool false),
          ("message", Json.str "Not authorized to update this vehicle")])⟩,
       store)
    else
      let v' := applyVehicleUpdate b v
      (⟨200, Body.json (Json.obj
         [("success", Json.bool true),
          ("message", Json.str "Vehicle updated successfully"),
          ("data", v'.toJson)])⟩,
       store.map (fun x => if x.id == id then v' else x))

/-- `DELETE /api/vehicles/:id`. -/
def vehiclesDeleteHandler (id : Nat) (partnerId : Nat)
    (store : List Vehicle) : Response × List Vehicle :=
  match store.find? (fun v => v.id == id) with
  | none =>
    (⟨404, Body.json (Json.obj
       [("success", Json.bool false),
        ("message", Json.str "Vehicle not found")])⟩, store)
  | some v =>
    if v.ownerId ≠ partnerId then
      (⟨403, Body.json (Json.obj
         [("success", Json.bool false),
          ("message", Json.str "Not authorized to delete this vehicle")])⟩,
       store)
    else
      (⟨200, Body.json (Json.obj
         [("success", Json.bool true),
          ("message", Json.str "Vehicle deleted successfully")])⟩,
       store.filter (fun x => x.id != id))

/-- The fields of `req.body` a material update may carry. -/
structure MaterialUpdateBody where
  name : Option String := none
  description : Option String := none
  pricePerUnit : Option ℚ := none
  availableQuantity : Option ℚ := none

/-- The validator chain of `PUT /api/materials/:id` (all optional). -/
def materialPutErrors (b : MaterialUpdateBody) : List Json :=
  checkOpt b.name
    (fun s => decide (2 ≤ (jsTrim s).length) && decide ((jsTrim s).length ≤ 100))
    "name" ++
  checkOpt b.description
    (fun s => decide (10 ≤ (jsTrim s).length) && decide ((jsTrim s).length ≤ 500))
    "description" ++
  checkOpt b.pricePerUnit (fun v => decide (0 ≤ v)) "pricePerUnit" ++
  checkOpt b.availableQuantity (fun v => decide (0 ≤ v)) "availableQuantity"

def applyMaterialUpdate (b : MaterialUpdateBody) (m : Material) : Material :=
  { m with
    name := (b.name.map jsTrim).getD m.name,
    description := (b.description.map jsTrim).getD m.description,
    pricePerUnit := b.pricePerUnit.getD m.pricePerUnit,
    availableQuantity := b.availableQuantity.getD m.availableQuantity }

/-- `PUT /api/materials/:id`: validation runs before the 404 and the
ownership check. -/
def materialsPutHandler (id : Nat) (partnerId : Nat)
    (b : MaterialUpdateBody) (store : List Material) :
    Response × List Material :=
  let errs := materialPutErrors b
  if errs.isEmpty then
    match store.find? (fun m => m.id == id) with
    | none =>
      (⟨404, Body.json (Json.obj
         [("success", Json.bool false),
          ("message", Json.str "Material not found")])⟩, store)
    | some m =>
      if m.supplierId ≠ partnerId then
        (⟨403, Body.json (Json.obj
           [("success", Json.bool false),
            ("message", Json.str "Not authorized to update this material")])⟩,
         store)
      else
        let m' := applyMaterialUpdate b m
        (⟨200, Body.json (Json.obj
           [("success", Json.bool true),
            ("message", Json.str "Material updated successfully"),
            ("data", m'.toJson)])⟩,
         store.map (fun x => if x.id == id then m' else x))
  else (validationFailedResp errs, store)

/-- `DELETE /api/materials/:id`. -/
def materialsDeleteHandler (id : Nat) (partnerId : Nat)
    (store : List Material) : Response × List Material :=
  match store.find? (fun m => m.id == id) with
  | none =>
    (⟨404, Body.json (Json.obj
       [("success", Json.bool false),
        ("message", Json.str "Material not found")])⟩, store)
  | some m =>
    if m.supplierId ≠ partnerId then
      (⟨403, Body.json (Json.obj
         [("success", Json.bool false),
          ("message", Json.str "Not authorized to delete this material")])⟩,
       store)
    else
      (⟨200, Body.json (Json.obj
         [("success", Json.bool true),
          ("message", Json.str "Material deleted successfully")])⟩,
       store.filter (fun x => x.id != id))

/-! ### Vehicle availability -/

/-- The validator chain of `POST /api/vehicles/:id/availability`;
`isAvailable` must be a boolean, the optional fields must carry the
expected JSON shape (the ISO-8601 content check of the external
validator library is abstracted to string-ness). -/
def availabilityErrors (body : List (String × Json)) : List Json :=
  (match body.lookup "isAvailable" with
   | some (Json.bool _) => []
   | _ => [fieldError "isAvailable"]) ++
  (match body.lookup "availableFrom" with
   | none => []
   | some (Json.str _) => []
   | some _ => [fieldError "availableFrom"]) ++
  (match body.lookup "availableUntil" with
   | none => []
   | some (Json.str _) => []
   | some _ => [fieldError "availableUntil"]) ++
  (match body.lookup "unavailableDates" with
   | none => []
   | some (Json.arr _) => []
   | some _ => [fieldError "unavailableDates"])

/-- `POST /api/vehicles/:id/availability`. -/
def vehiclesAvailabilityHandler (id : Nat) (partnerId : Nat)
    (body : List (String × Json)) (store : List Vehicle) :
    Response × List Vehicle :=
  let errs := availabilityErrors body
  if errs.isEmpty then
    match store.find? (fun v => v.id == id) with
    | none =>
      (⟨404, Body.json (Json.obj
         [("success", Json.bool false),
          ("message", Json.str "Vehicle not found")])⟩, store)
    | some v =>
      if v.ownerId ≠ partnerId then
        (⟨403, Body.json (Json.obj
           [("success", Json.bool false),
            ("message", Json.str "Not authorized to update this vehicle")])⟩,
         store)
      else
        let v' := { v with availability := Json.obj body }
        (⟨200, Body.json (Json.obj
           [("success", Json.bool true),
            ("message", Json.str "Vehicle availability updated successfully"),
            ("data", v'.toJson)])⟩,
         store.map (fun x => if x.id == id then v' else x))
  else (validationFailedResp errs, store)

/-! ### Category listings -/

/-- `Vehicle.findAll({ attributes: ['category'], group: ['category'] })`
projected to the category values: a deduplicating projection over all
rows, with no status filter. -/
def vehicleCategoriesData (store : List Vehicle) : List String :=
  (store.map (fun v => v.category)).dedup

/-- `GET /api/vehicles/categories/list`. -/
def vehiclesCategoriesHandler (store : List Vehicle) : Response :=
  ⟨200, Body.json (Json.obj
    [("success", Json.bool true),
     ("data", Json.arr ((vehicleCategoriesData store).map Json.str))])⟩

/-- Same projection for materials: no `isAvailable` filter. -/
def materialCategoriesData (store : List Material) : List String :=
  (store.map (fun m => m.category)).dedup

/-- `GET /api/materials/categories/list`. -/
def materialsCategoriesHandler (store : List Material) : Response :=
  ⟨200, Body.json (Json.obj
    [("success", Json.bool true),
     ("data", Json.arr ((materialCategoriesData store).map Json.str))])⟩

/-! ### Users routes -/

/-- The names bound at module scope in the users route file: its
requires pull in `express`, `auth`, express-validator helpers, the
`User` and `ServiceRequest` models and `Op` — but not `Material` or
`Vehicle`. -/
def usersModuleScope : List String :=
  ["express", "router", "auth", "body", "validationResult", "User",
   "ServiceRequest", "Op"]

/-- Evaluating a free identifier: a name missing from module scope
throws a `ReferenceError`. -/
def resolveName (n : String) : Except JsError Unit :=
  if usersModuleScope.contains n then Except.ok ()
  else Except.error (JsError.referenceError (n ++ " is not defined"))

/-- `GET /api/users/profile`; `dbFail` models the store throwing. -/
def usersGetProfile (uid : Nat) (users : List User) (dbFail : Bool) :
    Response :=
  if dbFail then ⟨500, Body.text "Server Error"⟩
  else
    ⟨200, Body.json (Json.obj
      [("success", Json.bool true),
       ("user", match users.find? (fun u => u.id == uid) with
         | some u => u.toSafeJson
         | none => Json.null)])⟩

/-- `PUT /api/users/profile`. The validator outcome `verrs` is passed
in (the email-format check lives in the external validator library);
its failure branch is `res.status(400).json({ errors: ... })` with no
`success` and no `message` field. -/
def usersPutProfile (verrs : List Json) (name email phone : String)
    (address : Option String) (uid : Nat) (users : List User)
    (dbFail : Bool) : Response × List User :=
  if verrs.isEmpty then
    if dbFail then (⟨500, Body.text "Server Error"⟩, users)
    else
      match users.find? (fun u => u.email == email && u.id != uid) with
      | some _ =>
        (⟨400, Body.json (Json.obj
           [("success", Json.bool false),
            ("message", Json.str "Email is already registered to another account")])⟩,
         users)
      | none =>
        let users' := users.map (fun u =>
          if u.id == uid then
            { u with name := name, email := email, phone := phone,
                     address := address.getD u.address }
          else u)
        (⟨200, Body.json (Json.obj
           [("success", Json.bool true),
            ("user", match users'.find? (fun u => u.id == uid) with
              | some u => u.toSafeJson
              | none => Json.null)])⟩,
         users')
  else (⟨400, Body.json (Json.obj [("errors", Json.arr verrs)])⟩, users)

/-- `GET /api/users/orders`: the `include` list names the models
`Material` and `Vehicle`, which the module never requires, so the
handler throws before querying and the catch branch answers
`500 'Server Error'`. -/
def usersOrdersHandler (uid : Nat) (reqRows : List Json) : Response :=
  match (do
      let _ ← resolveName "ServiceRequest"
      let _ ← resolveName "Material"
      let _ ← resolveName "Vehicle"
      pure () : Except JsError Unit) with
  | Except.error _ => ⟨500, Body.text "Server Error"⟩
  | Except.ok _ =>
    ⟨200, Body.json (Json.obj
      [("success", Json.bool true),
       ("data", Json.arr reqRows)])⟩

/-- `DELETE /api/users/account`: dependent service requests first,
then the user row. -/
def usersDeleteAccount (uid : Nat) (users : List User)
    (reqs : List ServiceRequest) (dbFail : Bool) :
    Response × List User × List ServiceRequest :=
  if dbFail then (⟨500, Body.text "Server Error"⟩, users, reqs)
  else
    (⟨200, Body.json (Json.obj
       [("success", Json.bool true),
        ("message", Json.str "User account deleted successfully")])⟩,
     users.filter (fun u => u.id != uid),
     reqs.filter (fun r => r.userId != uid))

/-! ### Concrete records and requests used by the scenario theorems -/

/-- An active excavator priced inside the 50-200 hourly window. -/
def exVehicle : Vehicle :=
  { id := 0, ownerId := 1, name := "CAT 320",
    description := "hydraulic excavator", category := "excavator",
    status := "active", pricePerHour := 100, pricePerDay := 800,
    rating := 4, year := 2020, featured := false, createdAt := 0,
    availability := Json.null }

/-- `GET /vehicles?category=excavator&minPriceHour=50&maxPriceHour=200&page=2&limit=10`. -/
def excavatorQuery : VehiclesListQuery :=
  { page := some 2, limit := some 10, category := some "excavator",
    minPriceHour := some 50, maxPriceHour := some 200 }

/-- `GET /vehicles?city=Colombo`. -/
def cityQuery : VehiclesListQuery := { city := some "Colombo" }

/-- A vehicle owned by partner 7. -/
def vehicleOf7 : Vehicle :=
  { id := 1, ownerId := 7, name := "Tipper", description := "ten wheel tipper",
    category := "truck", status := "active", pricePerHour := 20,
    pricePerDay := 150, rating := 3, year := 2015, featured := false,
    createdAt := 5, availability := Json.null }

/-- A material supplied by partner 7. -/
def materialOf7 : Material :=
  { id := 1, supplierId := 7, name := "River sand",
    description := "washed fine river sand", category := "sand",
    unit := "ton", pricePerUnit := 30, availableQuantity := 100,
    rating := 4, isAvailable := true, featured := false, createdAt := 0 }

/-- The query spec the vehicles listing executes for the empty criteria. -/
def emptyVehicleSpec : VehicleQuerySpec :=
  ⟨{ status := "active" }, [("featured", Dir.desc), ("rating", Dir.desc)], 0, 10⟩

/-- The query spec the materials listing executes for the empty criteria. -/
def emptyMaterialSpec : MaterialQuerySpec :=
  ⟨{ isAvailable := true }, [("featured", Dir.desc), ("rating", Dir.desc)], 0, 10⟩

/-! ### Helper lemmas -/

theorem applyCategoryFilter_status (q : VehiclesListQuery) (w : VehicleWhere) :
    (applyCategoryFilter q w).status = w.status := by
  cases hc : q.category <;> simp [applyCategoryFilter, hc]

theorem applyMinPriceHour_status (q : VehiclesListQuery) (w : VehicleWhere) :
    (applyMinPriceHour q w).status = w.status := by
  cases hc : q.minPriceHour <;> simp [applyMinPriceHour, hc]

theorem applyMaxPriceHour_status (q : VehiclesListQuery) (w : VehicleWhere) :
    (applyMaxPriceHour q w).status = w.status := by
  cases hc : q.maxPriceHour <;> simp [applyMaxPriceHour, hc]

theorem applyMinPriceDay_status (q : VehiclesListQuery) (w : VehicleWhere) :
    (applyMinPriceDay q w).status = w.status := by
  cases hc : q.minPriceDay <;> simp [applyMinPriceDay, hc]

theorem applyMaxPriceDay_status (q : VehiclesListQuery) (w : VehicleWhere) :
    (applyMaxPriceDay q w).status = w.status := by
  cases hc : q.maxPriceDay <;> simp [applyMaxPriceDay, hc]

/-- Whatever filters get applied, a successfully built vehicle `where`
object still says `status: 'active'`. -/
theorem buildVehicleWhere_status (q : VehiclesListQuery) (w : VehicleWhere)
    (h : buildVehicleWhere q = Except.ok w) : w.status = "active" := by
  unfold buildVehicleWhere at h
  split at h
  · exact absurd h (by simp)
  · split at h
    · exact absurd h (by simp)
    · split at h
      · exact absurd h (by simp)
      · injection h with h
        subst h
        rw [applyMaxPriceDay_status, applyMinPriceDay_status,
          applyMaxPriceHour_status, applyMinPriceHour_status,
          applyCategoryFilter_status]

/-- Same for materials: the built `where` keeps `isAvailable: true`. -/
theorem buildMaterialWhere_isAvailable (q : MaterialsListQuery)
    (w : MaterialWhere) (h : buildMaterialWhere q = Except.ok w) :
    w.isAvailable = true := by
  rcases hc : q.category with _ | c <;>
  rcases hmin : q.minPrice with _ | mv <;>
  rcases hmax : q.maxPrice with _ | xv <;>
  simp [buildMaterialWhere, hc, hmin, hmax] at h <;>
  (rw [← h])
/-- `pagesOf` is exactly the rational ceiling `Math.ceil` computes. -/
theorem pagesOf_eq_ceil (total limit : ℕ) (h : 1 ≤ limit) :
    pagesOf total limit = ⌈(total : ℚ) / (limit : ℚ)⌉ := by
  have hl : (0:ℚ) < (limit:ℚ) := by exact_mod_cast h
  set n : ℕ := (total + limit - 1) / limit with hn
  have hpn : pagesOf total limit = (n : ℤ) := rfl
  have h1 : n * limit ≤ total + limit - 1 :=
    (Nat.le_div_iff_mul_le (by omega)).1 (le_refl n)
  have h2 : total + limit - 1 < (n + 1) * limit :=
    (Nat.div_lt_iff_lt_mul (by omega)).1 (Nat.lt_succ_self n)
  have h2' : total + limit - 1 < n * limit + limit := by
    rw [Nat.succ_mul] at h2; exact h2
  have hub : total ≤ n * limit := by omega
  have hlt : n * limit < total + limit := by omega
  symm
  rw [Int.ceil_eq_iff, hpn]
  constructor
  · rw [sub_lt_iff_lt_add]
    rw [show (((n:ℤ)):ℚ) = ((n:ℚ)) by push_cast; ring]
    rw [div_add' _ _ _ (ne_of_gt hl), lt_div_iff₀ hl]
    have hlt' : (n:ℚ) * limit < (total:ℚ) + limit := by exact_mod_cast hlt
    linarith
  · rw [div_le_iff₀ hl]
    rw [show (((n:ℤ)):ℚ) = ((n:ℚ)) by push_cast; ring]
    have hub' : (total:ℚ) ≤ (n:ℚ) * limit := by exact_mod_cast hub
    linarith

theorem lookup_jsObjSet (fs : List (String × Json)) (k : String) (v : Json) :
    (jsObjSet fs k v).lookup k = some v := by
  unfold jsObjSet
  split
  case isTrue h =>
    induction fs with
    | nil => simp at h
    | cons p t ih =>
      obtain ⟨pk, pv⟩ := p
      by_cases hpk : pk = k
      · subst hpk
        simp [List.lookup_cons]
      · have hb : (pk == k) = false := beq_false_of_ne hpk
        simp only [List.map_cons, hb, Bool.false_eq_true, if_false,
          List.lookup_cons, beq_false_of_ne (Ne.symm hpk)]
        apply ih
        simp only [List.any_cons, hb, Bool.false_or] at h
        exact h
  case isFalse h =>
    induction fs with
    | nil => simp [List.lookup_cons]
    | cons p t ih =>
      obtain ⟨pk, pv⟩ := p
      have hb : (pk == k) = false := by
        cases hb : (pk == k)
        · rfl
        · exact absurd (by simp [List.any_cons, hb]) h
      simp only [List.cons_append, List.lookup_cons,
        beq_false_of_ne (Ne.symm (by simpa using hb))]
      apply ih
      intro hc
      exact h (by simp only [List.any_cons, hc, Bool.or_true])

/-! ### Claim theorems -/

/-- C1: the criteria-to-query translation is claimed to raise no
exception for validation-accepted criteria, but the code throws: the
vehicles handler assigns city/state/search filters into the undeclared
variable `filter`, and the materials handler reads the never-imported
`Op`. Both inputs below pass input validation yet the translation
evaluates to a thrown `ReferenceError`. -/
theorem claim1_translation_throws :
    vehiclesListQueryErrors cityQuery = []
  ∧ buildVehicleWhere cityQuery =
      Except.error (JsError.referenceError "filter is not defined")
  ∧ materialsListQueryErrors { minPrice := some 10 } = []
  ∧ buildMaterialWhere { minPrice := some 10 } =
      Except.error (JsError.referenceError "Op is not defined") :=
  ⟨rfl, rfl, rfl, rfl⟩

/-- C2: for `GET /vehicles?category=excavator&minPriceHour=50&
maxPriceHour=200&page=2&limit=10` against a store of 25 matching
excavators, the executed query carries the predicate
{status=active, category=excavator, pricePerHour in [50,200] merged on
one field}, offset 10 and limit 10, and the response pagination object
is {page:2, limit:10, total:25, pages:3}. -/
theorem claim2_excavator_scenario :
    (vehiclesListHandler excavatorQuery (List.replicate 25 exVehicle)).executed =
      some ⟨⟨"active", some "excavator", some ⟨some 50, some 200⟩, none⟩,
        [("featured", Dir.desc), ("rating", Dir.desc)], 10, 10⟩
  ∧ (vehiclesListHandler excavatorQuery (List.replicate 25 exVehicle)).resp.status = 200
  ∧ (((vehiclesListHandler excavatorQuery (List.replicate 25 exVehicle)).resp.jsonBody.getD
        Json.null).getField "pagination") =
      some (Pagination.toJson ⟨2, 10, 25, 3⟩) :=
  ⟨rfl, rfl, rfl⟩

/-- C3: the claim says a present city/state filter reaches the
persistence call as a case-insensitive partial-match constraint; in
the code the assignment targets the undeclared `filter` variable, the
handler throws, no query is handed to `findAndCountAll` at all
(`executed = none`) and the catch branch answers 500. -/
theorem claim3_city_filter_lost :
    ((vehiclesListHandler cityQuery [exVehicle]).executed = none
  ∧ (vehiclesListHandler cityQuery [exVehicle]).resp = vehiclesCatchResp)
  ∧ ((vehiclesListHandler { state := some "Western" } [exVehicle]).executed = none
  ∧ (vehiclesListHandler { state := some "Western" } [exVehicle]).resp = vehiclesCatchResp) :=
  ⟨⟨rfl, rfl⟩, ⟨rfl, rfl⟩⟩

/-- C6: every query a listing handler actually executes carries the
availability constraint — `status='active'` for vehicles,
`isAvailable=true` for materials — whatever caller-supplied filters
the criteria contain. -/
theorem claim6_active_constraint :
    (∀ (q : VehiclesListQuery) (store : List Vehicle) (spec : VehicleQuerySpec),
        (vehiclesListHandler q store).executed = some spec →
        spec.whereClause.status = "active")
  ∧ (∀ (q : MaterialsListQuery) (store : List Material) (spec : MaterialQuerySpec),
        (materialsListHandler q store).executed = some spec →
        spec.whereClause.isAvailable = true) := by
  constructor
  · intro q store spec h
    rcases hb : buildVehicleWhere q with e | w
    · simp only [vehiclesListHandler, hb] at h
      split at h <;> simp at h
    · simp only [vehiclesListHandler, hb] at h
      split at h
      · simp only [Option.some.injEq] at h
        rw [← h]
        exact buildVehicleWhere_status q w hb
      · simp at h
  · intro q store spec h
    rcases hb : buildMaterialWhere q with e | w
    · simp only [materialsListHandler, hb] at h
      split at h <;> simp at h
    · simp only [materialsListHandler, hb] at h
      split at h
      · simp only [Option.some.injEq] at h
        rw [← h]
        exact buildMaterialWhere_isAvailable q w hb
      · simp at h

/-- Witness for C6 at the empty criteria against an empty store. -/
theorem claim6_active_constraint_witness :
    emptyVehicleSpec.whereClause.status = "active"
  ∧ emptyMaterialSpec.whereClause.isAvailable = true :=
  ⟨claim6_active_constraint.1 {} [] emptyVehicleSpec rfl,
   claim6_active_constraint.2 {} [] emptyMaterialSpec rfl⟩

/-- C7: for `pageSize` in [1,100] and `page ≥ 1`, the pagination
object satisfies `totalPages = ceil(totalCount / pageSize)` over the
exact rationals, is 0 exactly when the total is 0, is never negative,
and does not depend on the requested page. -/
theorem claim7_pagination (total page limit : ℕ) (hl1 : 1 ≤ limit)
    (hl2 : limit ≤ 100) (hp : 1 ≤ page) :
    (paginate total page limit).pages = ⌈(total : ℚ) / (limit : ℚ)⌉
  ∧ ((paginate total page limit).pages = 0 ↔ total = 0)
  ∧ 0 ≤ (paginate total page limit).pages
  ∧ ∀ pageReq : ℕ,
      (paginate total page limit).pages = (paginate total pageReq limit).pages := by
  refine ⟨pagesOf_eq_ceil total limit hl1, ?_, ?_, fun _ => rfl⟩
  · show pagesOf total limit = 0 ↔ total = 0
    unfold pagesOf
    constructor
    · intro h
      have hz : (total + limit - 1) / limit = 0 := by exact_mod_cast h
      have hlt : total + limit - 1 < limit :=
        (Nat.div_eq_zero_iff (by omega)).1 hz
      omega
    · intro h
      subst h
      have : (0 + limit - 1) / limit = 0 := Nat.div_eq_of_lt (by omega)
      exact_mod_cast this
  · show (0:ℤ) ≤ pagesOf total limit
    unfold pagesOf
    exact Int.natCast_nonneg _

/-- Witness for C7 at total 25, page 7, limit 10. -/
theorem claim7_pagination_witness :
    (paginate 25 7 10).pages = ⌈((25:ℕ) : ℚ) / ((10:ℕ) : ℚ)⌉
  ∧ ((paginate 25 7 10).pages = 0 ↔ (25:ℕ) = 0)
  ∧ 0 ≤ (paginate 25 7 10).pages
  ∧ ∀ pageReq : ℕ, (paginate 25 7 10).pages = (paginate 25 pageReq 10).pages :=
  claim7_pagination 25 7 10 (by decide) (by decide) (by decide)

/-- C5 counterexample: a non-owner `PUT /materials/:id` whose payload
fails validation (name of trimmed length 1) gets 400, not the claimed
403 — validation runs before the ownership check — though the record
does stay unchanged. -/
theorem claim5_counterexample :
    ([materialOf7].find? (fun x => x.id == 1) = some materialOf7)
  ∧ materialOf7.supplierId ≠ 9
  ∧ (materialsPutHandler 1 9 { name := some "a" } [materialOf7]).1.status = 400
  ∧ (materialsPutHandler 1 9 { name := some "a" } [materialOf7]).1.status ≠ 403
  ∧ (materialsPutHandler 1 9 { name := some "a" } [materialOf7]).2 = [materialOf7] :=
  ⟨rfl, by decide, rfl, by decide, rfl⟩

/-- C5 (amended): when the target exists and is owned by someone else,
the store is never changed; the response is 403 for vehicle PUT,
vehicle DELETE, material DELETE, and for material PUT with a
validation-passing payload, while material PUT answers 400 when the
payload fails validation. -/
theorem claim5_ownership_forbidden :
    (∀ (id pid : ℕ) (b : VehicleUpdateBody) (store : List Vehicle) (v : Vehicle),
        store.find? (fun x => x.id == id) = some v → v.ownerId ≠ pid →
        (vehiclesPutHandler id pid b store).1.status = 403
      ∧ (vehiclesPutHandler id pid b store).2 = store)
  ∧ (∀ (id pid : ℕ) (store : List Vehicle) (v : Vehicle),
        store.find? (fun x => x.id == id) = some v → v.ownerId ≠ pid →
        (vehiclesDeleteHandler id pid store).1.status = 403
      ∧ (vehiclesDeleteHandler id pid store).2 = store)
  ∧ (∀ (id pid : ℕ) (store : List Material) (m : Material),
        store.find? (fun x => x.id == id) = some m → m.supplierId ≠ pid →
        (materialsDeleteHandler id pid store).1.status = 403
      ∧ (materialsDeleteHandler id pid store).2 = store)
  ∧ (∀ (id pid : ℕ) (b : MaterialUpdateBody) (store : List Material) (m : Material),
        store.find? (fun x => x.id == id) = some m → m.supplierId ≠ pid →
        (materialsPutHandler id pid b store).2 = store
      ∧ ((materialPutErrors b).isEmpty = true →
          (materialsPutHandler id pid b store).1.status = 403)
      ∧ ((materialPutErrors b).isEmpty = false →
          (materialsPutHandler id pid b store).1.status = 400)) := by
  refine ⟨?_, ?_, ?_, ?_⟩
  · intro id pid b store v hfind hne
    simp only [vehiclesPutHandler, hfind]
    rw [if_pos hne]
    exact ⟨rfl, rfl⟩
  · intro id pid store v hfind hne
    simp only [vehiclesDeleteHandler, hfind]
    rw [if_pos hne]
    exact ⟨rfl, rfl⟩
  · intro id pid store m hfind hne
    simp only [materialsDeleteHandler, hfind]
    rw [if_pos hne]
    exact ⟨rfl, rfl⟩
  · intro id pid b store m hfind hne
    refine ⟨?_, ?_, ?_⟩
    · cases herr : (materialPutErrors b).isEmpty
      · simp [materialsPutHandler, herr]
      · simp only [materialsPutHandler, herr, if_true, hfind]
        rw [if_pos hne]
    · intro htrue
      simp only [materialsPutHandler, htrue, if_true, hfind]
      rw [if_pos hne]
    · intro hfalse
      simp [materialsPutHandler, hfalse, validationFailedResp]

/-- Witness for C5 (amended) at non-owning partner 9 against records
of partner 7. -/
theorem claim5_ownership_forbidden_witness :
    ((vehiclesPutHandler 1 9 {} [vehicleOf7]).1.status = 403
  ∧ (vehiclesPutHandler 1 9 {} [vehicleOf7]).2 = [vehicleOf7])
  ∧ ((vehiclesDeleteHandler 1 9 [vehicleOf7]).1.status = 403
  ∧ (vehiclesDeleteHandler 1 9 [vehicleOf7]).2 = [vehicleOf7])
  ∧ ((materialsDeleteHandler 1 9 [materialOf7]).1.status = 403
  ∧ (materialsDeleteHandler 1 9 [materialOf7]).2 = [materialOf7])
  ∧ ((materialsPutHandler 1 9 {} [materialOf7]).2 = [materialOf7]
  ∧ (materialsPutHandler 1 9 {} [materialOf7]).1.status = 403) := by
  refine ⟨claim5_ownership_forbidden.1 1 9 {} [vehicleOf7] vehicleOf7 rfl (by decide),
    claim5_ownership_forbidden.2.1 1 9 [vehicleOf7] vehicleOf7 rfl (by decide),
    claim5_ownership_forbidden.2.2.1 1 9 [materialOf7] materialOf7 rfl (by decide),
    ?_⟩
  have h := claim5_ownership_forbidden.2.2.2 1 9 {} [materialOf7] materialOf7
    rfl (by decide)
  exact ⟨h.1, h.2.1 rfl⟩

/-- C8: the object handed to `create` — `{...req.body, ownerId/
supplierId: req.user.partnerId}` — always answers the acting partner's
id for the owner key, whatever the request body supplied there. -/
theorem claim8_owner_from_principal :
    (∀ (body : List (String × Json)) (partnerId : ℕ),
        (vehicleDataOf body partnerId).lookup "ownerId" =
          some (Json.num partnerId))
  ∧ (∀ (body : List (String × Json)) (partnerId : ℕ),
        (materialDataOf body partnerId).lookup "supplierId" =
          some (Json.num partnerId)) :=
  ⟨fun body pid => lookup_jsObjSet body "ownerId" (Json.num pid),
   fun body pid => lookup_jsObjSet body "supplierId" (Json.num pid)⟩

/-- C9: `GET /{T}/categories/list` serves exactly the deduplicated
projection of the `category` column over all rows — no availability or
status filter, so inactive and unavailable rows contribute too. -/
theorem claim9_categories_projection :
    ∀ (vs : List Vehicle) (ms : List Material) (c : String),
      (c ∈ vehicleCategoriesData vs ↔ ∃ v ∈ vs, v.category = c)
    ∧ (vehicleCategoriesData vs).Nodup
    ∧ (c ∈ materialCategoriesData ms ↔ ∃ m ∈ ms, m.category = c)
    ∧ (materialCategoriesData ms).Nodup := by
  intro vs ms c
  refine ⟨?_, List.nodup_dedup _, ?_, List.nodup_dedup _⟩
  · simp [vehicleCategoriesData, List.mem_dedup]
  · simp [materialCategoriesData, List.mem_dedup]

/-- C10: `GET /users/orders` always answers 500 with the plain-text
body 'Server Error', because the `include` list names `Material` and
`Vehicle`, neither of which is bound in the users module scope. -/
theorem claim10_orders_always_500 :
    (∀ (uid : ℕ) (reqRows : List Json),
        usersOrdersHandler uid reqRows = ⟨500, Body.text "Server Error"⟩)
  ∧ "Material" ∉ usersModuleScope
  ∧ "Vehicle" ∉ usersModuleScope :=
  ⟨fun _ _ => rfl, by decide, by decide⟩

/-- C4 counterexample: the users module breaks the envelope claim at
concrete inputs — its catch branch sends the plain-text body
'Server Error', and the `PUT /users/profile` validation failure is a
JSON object with neither `success` nor `message`. -/
theorem claim4_counterexample :
    usersGetProfile 1 [] true = ⟨500, Body.text "Server Error"⟩
  ∧ isEnvelope (usersGetProfile 1 [] true) = false
  ∧ (usersPutProfile [fieldError "name"] "" "nobody" "" none 1 [] false).1 =
      ⟨400, Body.json (Json.obj [("errors", Json.arr [fieldError "name"])])⟩
  ∧ isEnvelope (usersPutProfile [fieldError "name"] "" "nobody" "" none 1 [] false).1 = false
  ∧ hasMessage (usersPutProfile [fieldError "name"] "" "nobody" "" none 1 [] false).1 = false :=
  ⟨rfl, rfl, rfl, rfl, rfl⟩

/-- C4 (amended): every response of the vehicles and materials routes
is an envelope `{success: bool, ...}` whose error statuses carry
`message` and whose 400s carry an `errors` array; the users routes
keep that discipline on their remaining branches but deviate in their
catch branches (plain-text 'Server Error', which `GET /users/orders`
always hits) and in the `PUT /users/profile` validation failure
(`{errors: [...]}` with no `success`/`message`). -/
theorem claim4_envelope_discipline :
    (∀ (q : VehiclesListQuery) (store : List Vehicle),
        envelopeOk (vehiclesListHandler q store).resp = true)
  ∧ (∀ (id : ℕ) (store : List Vehicle),
        envelopeOk (vehiclesGetByIdHandler id store) = true)
  ∧ (∀ (maxYear : ℕ) (body : List (String × Json)) (pid : ℕ),
        envelopeOk (vehiclesPostHandler maxYear body pid) = true)
  ∧ (∀ (id pid : ℕ) (b : VehicleUpdateBody) (store : List Vehicle),
        envelopeOk (vehiclesPutHandler id pid b store).1 = true)
  ∧ (∀ (id pid : ℕ) (store : List Vehicle),
        envelopeOk (vehiclesDeleteHandler id pid store).1 = true)
  ∧ (∀ (id pid : ℕ) (body : List (String × Json)) (store : List Vehicle),
        envelopeOk (vehiclesAvailabilityHandler id pid body store).1 = true)
  ∧ (∀ (store : List Vehicle),
        envelopeOk (vehiclesCategoriesHandler store) = true)
  ∧ (∀ (q : MaterialsListQuery) (store : List Material),
        envelopeOk (materialsListHandler q store).resp = true)
  ∧ (∀ (id : ℕ) (store : List Material),
        envelopeOk (materialsGetByIdHandler id store) = true)
  ∧ (∀ (body : List (String × Json)) (pid : ℕ),
        envelopeOk (materialsPostHandler body pid) = true)
  ∧ (∀ (id pid : ℕ) (b : MaterialUpdateBody) (store : List Material),
        envelopeOk (materialsPutHandler id pid b store).1 = true)
  ∧ (∀ (id pid : ℕ) (store : List Material),
        envelopeOk (materialsDeleteHandler id pid store).1 = true)
  ∧ (∀ (store : List Material),
        envelopeOk (materialsCategoriesHandler store) = true)
  ∧ (∀ (uid : ℕ) (users : List User),
        envelopeOk (usersGetProfile uid users false) = true)
  ∧ (∀ (uid : ℕ) (users : List User),
        usersGetProfile uid users true = ⟨500, Body.text "Server Error"⟩)
  ∧ (∀ (verrs : List Json) (name email phone : String)
        (address : Option String) (uid : ℕ) (users : List User)
        (dbFail : Bool), verrs ≠ [] →
        (usersPutProfile verrs name email phone address uid users dbFail).1 =
          ⟨400, Body.json (Json.obj [("errors", Json.arr verrs)])⟩)
  ∧ (∀ (name email phone : String) (address : Option String) (uid : ℕ)
        (users : List User),
        envelopeMsgOk (usersPutProfile [] name email phone address uid users false).1 = true)
  ∧ (∀ (uid : ℕ) (reqRows : List Json),
        usersOrdersHandler uid reqRows = ⟨500, Body.text "Server Error"⟩)
  ∧ (∀ (uid : ℕ) (users : List User) (reqs : List ServiceRequest),
        envelopeOk (usersDeleteAccount uid users reqs false).1 = true) := by
  refine ⟨?_, ?_, ?_, ?_, ?_, ?_, ?_, ?_, ?_, ?_, ?_, ?_, ?_, ?_, ?_, ?_,
    ?_, ?_, ?_⟩
  · intro q store
    simp only [vehiclesListHandler]
    split
    · split <;> rfl
    · rfl
  · intro id store
    simp only [vehiclesGetByIdHandler]
    split <;> rfl
  · intro maxYear body pid
    simp only [vehiclesPostHandler]
    split <;> rfl
  · intro id pid b store
    simp only [vehiclesPutHandler]
    split
    · rfl
    · split <;> rfl
  · intro id pid store
    simp only [vehiclesDeleteHandler]
    split
    · rfl
    · split <;> rfl
  · intro id pid body store
    simp only [vehiclesAvailabilityHandler]
    split
    · split
      · rfl
      · split <;> rfl
    · rfl
  · intro store
    rfl
  · intro q store
    simp only [materialsListHandler]
    split
    · split <;> rfl
    · rfl
  · intro id store
    simp only [materialsGetByIdHandler]
    split <;> rfl
  · intro body pid
    simp only [materialsPostHandler]
    split <;> rfl
  · intro id pid b store
    simp only [materialsPutHandler]
    split
    · split
      · rfl
      · split <;> rfl
    · rfl
  · intro id pid store
    simp only [materialsDeleteHandler]
    split
    · rfl
    · split <;> rfl
  · intro store
    rfl
  · intro uid users
    rfl
  · intro uid users
    rfl
  · intro verrs name email phone address uid users dbFail hne
    cases verrs with
    | nil => exact absurd rfl hne
    | cons e t => rfl
  · intro name email phone address uid users
    simp only [usersPutProfile]
    split
    · split
      · rename_i hfa
        exact absurd hfa (by simp)
      · split <;> rfl
    · rename_i hemp
      exact absurd rfl hemp
  · intro uid reqRows
    rfl
  · intro uid users reqs
    rfl

/-- Witness for C4 (amended) at a concrete failed validation of
`PUT /users/profile`. -/
theorem claim4_envelope_discipline_witness :
    (usersPutProfile [fieldError "email"] "Ann" "ann-at-x" "071" none 2 [] false).1 =
      ⟨400, Body.json (Json.obj [("errors", Json.arr [fieldError "email"])])⟩ :=
  claim4_envelope_discipline.2.2.2.2.2.2.2.2.2.2.2.2.2.2.2.1
    [fieldError "email"] "Ann" "ann-at-x" "071" none 2 [] false (by simp)
